import Mathlib

/-!
Shallow embedding of the auth-email-otp service (src/main.py, src/sqllite3.py).

The persistent state is the two sqlite tables created in sqllite3.py:
`users (email TEXT PRIMARY KEY, otp TEXT, timestamp REAL)` and
`blacklisted_tokens (token TEXT PRIMARY KEY)`.  We model them as association
lists keyed by email / token.  Clock instants (`time.time()`,
`datetime.utcnow()`) are integers (seconds): every comparison the code makes
on them is order-theoretic, so nothing depends on fractional values.
Optional SQL columns (NULL-able `otp`, `timestamp`) are `Option`s.

A JWT produced by `jwt.encode(payload, key, "HS256")` is modelled as a
structured token carrying the payload together with its HMAC signature; the
HMAC is idealised as the injective function `jwtSign key payload = (key,
payload)` (perfectly collision-free MAC).  An arbitrary client-supplied token
string is either a structurally valid JWT or malformed.  `jwt.decode`
verifies the signature, then rejects expired tokens, mirroring PyJWT which
raises `PyJWTError` on any structural, signature, or expiry failure.

Python-level outcomes are `ApiResult`: a FastAPI `HTTPException(status,
detail)`, an unhandled Python `TypeError` (as raised by `float - None`), an
unhandled `sqlite3.IntegrityError` (UNIQUE-constraint violation on INSERT),
or a successful value.
-/

/-- Payload of a JWT as used by main.py: an optional `"sub"` claim and an
`"exp"` claim (absolute expiry instant, seconds). -/
structure JwtPayload where
  sub : Option String
  exp : ℤ
deriving DecidableEq, Repr

/-- Idealised HMAC-SHA256 over a payload with a secret key: modelled as the
injective pairing of key and payload, so two signatures agree iff key and
payload agree (collision-free MAC idealisation). -/
def jwtSign (key : String) (p : JwtPayload) : String × JwtPayload :=
  (key, p)

/-- A token string presented by a client: either a structurally valid JWT
(payload plus signature) or a malformed string that is not a JWT at all. -/
inductive Tok where
  | jwtTok (payload : JwtPayload) (sig : String × JwtPayload)
  | malformed (raw : String)
deriving DecidableEq, Repr

/-- `jwt.encode(payload, key, algorithm="HS256")`. -/
def jwt_encode (key : String) (p : JwtPayload) : Tok :=
  .jwtTok p (jwtSign key p)

/-- `jwt.decode(token, key, algorithms=["HS256"])`: `none` models a raised
`jwt.PyJWTError` (malformed token, bad signature, or expired `exp`). -/
def jwt_decode (key : String) (now : ℤ) (t : Tok) : Option JwtPayload :=
  match t with
  | .malformed _ => none
  | .jwtTok p sig =>
    if sig ≠ jwtSign key p then none
    else if p.exp ≤ now then none
    else some p

/-- A row of the `users` table, minus the primary key: NULL-able `otp` and
`timestamp` columns. -/
structure UserRecord where
  otp : Option String
  timestamp : Option ℤ
deriving DecidableEq, Repr

/-- The persistent state held in `auth.db`: the `users` table and the
`blacklisted_tokens` table. -/
structure AuthState where
  users : List (String × UserRecord)
  blacklist : List Tok
deriving DecidableEq, Repr

/-- `SELECT ... FROM users WHERE email = ?` followed by `fetchone()`. -/
def lookupUser : List (String × UserRecord) → String → Option UserRecord
  | [], _ => none
  | (k, v) :: rest, e => if k = e then some v else lookupUser rest e

/-- `UPDATE users SET otp = ?, timestamp = ? WHERE email = ?`: rewrites the
non-key columns of every row whose email matches. -/
def updateChallenge : List (String × UserRecord) → String → UserRecord →
    List (String × UserRecord)
  | [], _, _ => []
  | (k, v) :: rest, e, r =>
    if k = e then (k, r) :: updateChallenge rest e r
    else (k, v) :: updateChallenge rest e r

/-- Outcome of a request handler: success value, a raised
`HTTPException(status_code, detail)`, an unhandled Python `TypeError`, or an
unhandled `sqlite3.IntegrityError`. -/
inductive ApiResult (α : Type) where
  | ok (val : α)
  | httpError (status : Nat) (detail : String)
  | typeError
  | integrityError
deriving DecidableEq, Repr

/-- `SECRET_KEY = os.getenv("SECRET_KEY", "your_secret_key")` (default). -/
def SECRET_KEY : String := "your_secret_key"

/-- `ACCESS_TOKEN_EXPIRE_MINUTES = 30`. -/
def ACCESS_TOKEN_EXPIRE_MINUTES : ℤ := 30

/-- The expiry instant computed by `create_access_token`: `now +
expires_delta` when `expires_delta` is truthy (present and non-zero —
`timedelta(0)` is falsy in Python), else `now + 30 minutes`. -/
def tokenExpire (now : ℤ) (expires_delta : Option ℤ) : ℤ :=
  match expires_delta with
  | some d => if d ≠ 0 then now + d else now + ACCESS_TOKEN_EXPIRE_MINUTES * 60
  | none => now + ACCESS_TOKEN_EXPIRE_MINUTES * 60

/-- `create_access_token(data, expires_delta)` for `data = {"sub": sub}`
(possibly absent `sub`): copies the data, adds `exp`, signs with
`SECRET_KEY`.  The clock read `datetime.utcnow()` is the `now` argument. -/
def create_access_token (sub : Option String) (now : ℤ)
    (expires_delta : Option ℤ) : Tok :=
  jwt_encode SECRET_KEY ⟨sub, tokenExpire now expires_delta⟩

/-- `verify_token(token)`: decodes under `SECRET_KEY`; on `PyJWTError` or a
missing `"sub"` claim raises `HTTPException(401, "Invalid token")`, else
returns the subject email. -/
def verify_token (now : ℤ) (t : Tok) : ApiResult String :=
  match jwt_decode SECRET_KEY now t with
  | none => .httpError 401 "Invalid token"
  | some p =>
    match p.sub with
    | none => .httpError 401 "Invalid token"
    | some email => .ok email

/-- `is_token_blacklisted(token)`: membership in `blacklisted_tokens`. -/
def is_token_blacklisted (st : AuthState) (t : Tok) : Bool :=
  st.blacklist.any (fun x => decide (x = t))

/-- `POST /register` (`register_user`): rejects an already-present email
with 400 "Email already registered", otherwise inserts `(email, NULL,
NULL)`. -/
def register_user (st : AuthState) (email : String) :
    ApiResult Unit × AuthState :=
  match lookupUser st.users email with
  | some _ => (.httpError 400 "Email already registered", st)
  | none => (.ok (), { st with users := st.users ++ [(email, ⟨none, none⟩)] })

/-- `POST /send-otp` (`send_otp`): rejects an unknown email with 400 "Email
not allowed"; otherwise writes the freshly generated `otp` and `time.time()`
into the user's row and commits, then attempts delivery.  The generated code
and the delivery outcome are inputs of the model (`otp`, `deliveryOk`): the
generator is random and `send_email` is an external effect.  On delivery
failure the handler raises 500 "Failed to send email" after the commit. -/
def send_otp (st : AuthState) (email otp : String) (now : ℤ)
    (deliveryOk : Bool) : ApiResult Unit × AuthState :=
  match lookupUser st.users email with
  | none => (.httpError 400 "Email not allowed", st)
  | some _ =>
    let st1 : AuthState :=
      { st with users := updateChallenge st.users email ⟨some otp, some now⟩ }
    if deliveryOk then (.ok (), st1)
    else (.httpError 500 "Failed to send email", st1)

/-- `POST /verify-otp` (`verify_otp`): `current_time = time.time()` is read
once at entry; the model's clock returns the same value for the
`datetime.utcnow()` read inside `create_access_token` in the same call.
Mirrors the source line by line: a missing row gives 404 "OTP not found"; a
NULL `timestamp` makes `current_time - timestamp` raise `TypeError`; an
elapsed time over 180 s clears the row and gives 400 "OTP expired"; a
mismatched code gives 400 "Invalid OTP" with no state change; a match clears
the row and mints a token for `email` with `expires_delta` of 30 minutes. -/
def verify_otp (st : AuthState) (email otp : String) (current_time : ℤ) :
    ApiResult Tok × AuthState :=
  match lookupUser st.users email with
  | none => (.httpError 404 "OTP not found", st)
  | some r =>
    match r.timestamp with
    | none => (.typeError, st)
    | some ts =>
      if 180 < current_time - ts then
        (.httpError 400 "OTP expired",
         { st with users := updateChallenge st.users email ⟨none, none⟩ })
      else if r.otp ≠ some otp then
        (.httpError 400 "Invalid OTP", st)
      else
        (.ok (create_access_token (some email) current_time (some (30 * 60))),
         { st with users := updateChallenge st.users email ⟨none, none⟩ })

/-- `GET /token-check` (`token_check`): a blacklisted token gives 401 "Token
has been revoked"; otherwise the result of `verify_token`. -/
def token_check (st : AuthState) (now : ℤ) (t : Tok) : ApiResult String :=
  if is_token_blacklisted st t then .httpError 401 "Token has been revoked"
  else verify_token now t

/-- `POST /logout` (`logout`): `INSERT INTO blacklisted_tokens (token)
VALUES (?)`.  `token` is the PRIMARY KEY, so inserting a token already
present violates the UNIQUE constraint and sqlite3 raises `IntegrityError`
(unhandled by the handler). -/
def logout (st : AuthState) (t : Tok) : ApiResult Unit × AuthState :=
  if is_token_blacklisted st t then (.integrityError, st)
  else (.ok (), { st with blacklist := st.blacklist ++ [t] })

/-! Concrete fixtures used by closed theorems. -/

/-- A one-user state: `a@x.com` holds the pending challenge `111111` issued
at instant 10. -/
def sampleChallengeSt : AuthState :=
  ⟨[("a@x.com", ⟨some "111111", some 10⟩)], []⟩

/-- A token string that is not a structurally valid JWT. -/
def garbageTok : Tok := .malformed "garbage"

/-- A well-formed token signed with the service's secret key. -/
def sampleTok : Tok := jwt_encode SECRET_KEY ⟨some "a@x.com", 1000⟩

/-- A token whose signature was produced with a different key: signature
verification fails. -/
def forgedTok : Tok := .jwtTok ⟨some "a@x.com", 1000⟩ ("badkey", ⟨some "a@x.com", 1000⟩)

/-- A state whose blacklist contains exactly `sampleTok`. -/
def revokedSt : AuthState := ⟨[], [sampleTok]⟩

/-! Helper lemmas about the store operations. -/

theorem lookupUser_updateChallenge_self (users : List (String × UserRecord))
    (e : String) (r : UserRecord) :
    lookupUser (updateChallenge users e r) e
      = (lookupUser users e).map (fun _ => r) := by
  induction users with
  | nil => rfl
  | cons p rest ih =>
    obtain ⟨k, v⟩ := p
    by_cases h : k = e
    · subst h
      simp [updateChallenge, lookupUser]
    · simp [updateChallenge, lookupUser, if_neg h, ih]

theorem lookupUser_append_self (users : List (String × UserRecord))
    (e : String) (r : UserRecord) (h : lookupUser users e = none) :
    lookupUser (users ++ [(e, r)]) e = some r := by
  induction users with
  | nil => simp [lookupUser]
  | cons p rest ih =>
    obtain ⟨k, v⟩ := p
    by_cases hk : k = e
    · subst hk
      simp [lookupUser] at h
    · simp only [List.cons_append, lookupUser, if_neg hk] at h ⊢
      exact ih h

theorem is_token_blacklisted_append (us : List (String × UserRecord))
    (bl : List Tok) (t : Tok) :
    is_token_blacklisted ⟨us, bl ++ [t]⟩ t = true := by
  simp [is_token_blacklisted]

/-! Claim theorems. -/

/-- Claim C1: the spec says a verification with no pending challenge fails
with `NoChallenge` (the 404 "OTP not found" failure).  The code instead
raises an unhandled Python `TypeError`: for every registered email whose row
has a NULL `timestamp` — exactly the no-pending-challenge state, e.g.
immediately after a successful redemption — `verify_otp` evaluates
`current_time - None`.  The `result is None` guard only covers unregistered
emails, so the claim describes the intent and the code is a slip. -/
theorem verify_otp_no_challenge_raises_type_error
    (st : AuthState) (e s : String) (now : ℤ) (r : UserRecord)
    (hreg : lookupUser st.users e = some r) (hnone : r.timestamp = none) :
    verify_otp st e s now = (.typeError, st) := by
  simp [verify_otp, hreg, hnone]

/-- Claim C1, concrete scenario: a successful redemption followed by a
second verification of the same code raises `TypeError`, not 404. -/
theorem verify_otp_no_challenge_type_error_witness :
    verify_otp (verify_otp sampleChallengeSt "a@x.com" "111111" 20).2
        "a@x.com" "111111" 20
      = (.typeError, (verify_otp sampleChallengeSt "a@x.com" "111111" 20).2) :=
  verify_otp_no_challenge_raises_type_error
    (verify_otp sampleChallengeSt "a@x.com" "111111" 20).2
    "a@x.com" "111111" 20 ⟨none, none⟩ (by decide) (by decide)

/-- Claim C2, counterexample: revoking the same credential twice does not
succeed the second time — the second `INSERT` into `blacklisted_tokens`
violates the PRIMARY KEY UNIQUE constraint and sqlite3 raises
`IntegrityError`. -/
theorem logout_twice_integrity_error :
    (logout ⟨[], []⟩ garbageTok).1 = .ok () ∧
    (logout (logout ⟨[], []⟩ garbageTok).2 garbageTok).1 = .integrityError := by
  decide

/-- Claim C2 as amended: revoking a not-yet-revoked credential succeeds and
records it, but a second revocation of the same credential fails with
`sqlite3.IntegrityError` — revocation is not idempotent. -/
theorem logout_not_idempotent (st : AuthState) (t : Tok)
    (h : is_token_blacklisted st t = false) :
    logout st t = (.ok (), ⟨st.users, st.blacklist ++ [t]⟩) ∧
    is_token_blacklisted (logout st t).2 t = true ∧
    (logout (logout st t).2 t).1 = .integrityError := by
  have h1 : logout st t = (.ok (), ⟨st.users, st.blacklist ++ [t]⟩) := by
    simp [logout, h]
  refine ⟨h1, ?_, ?_⟩
  · rw [h1]
    exact is_token_blacklisted_append _ _ _
  · rw [h1]
    simp [logout, is_token_blacklisted_append]

/-- Claim C2 amended, at a concrete credential and the empty state. -/
theorem logout_not_idempotent_witness :
    logout ⟨[], []⟩ garbageTok = (.ok (), ⟨[], [garbageTok]⟩) ∧
    is_token_blacklisted (logout ⟨[], []⟩ garbageTok).2 garbageTok = true ∧
    (logout (logout ⟨[], []⟩ garbageTok).2 garbageTok).1 = .integrityError :=
  logout_not_idempotent ⟨[], []⟩ garbageTok (by decide)

/-- Claim C3, counterexample: a revoked token and a forged-signature token
fail differently at `token_check`: both carry status 401 but the detail
strings differ ("Token has been revoked" vs "Invalid token"), so the caller
can tell which check failed. -/
theorem revoked_vs_forged_distinguishable :
    token_check revokedSt 100 sampleTok
      = .httpError 401 "Token has been revoked" ∧
    token_check revokedSt 100 forgedTok = .httpError 401 "Invalid token" ∧
    token_check revokedSt 100 sampleTok
      ≠ token_check revokedSt 100 forgedTok := by
  decide

/-- Claim C3 as amended: a revoked credential fails with 401 "Token has been
revoked" while a non-revoked credential whose decode fails (bad signature,
malformed, or expired) fails with 401 "Invalid token"; the two failures
share the status code but not the detail string, so they are observably
distinct. -/
theorem token_check_distinct_details (st : AuthState) (now : ℤ) (t u : Tok)
    (ht : is_token_blacklisted st t = true)
    (hu : is_token_blacklisted st u = false)
    (hbad : jwt_decode SECRET_KEY now u = none) :
    token_check st now t = .httpError 401 "Token has been revoked" ∧
    token_check st now u = .httpError 401 "Invalid token" ∧
    token_check st now t ≠ token_check st now u := by
  refine ⟨by simp [token_check, ht], by simp [token_check, hu, verify_token, hbad], ?_⟩
  simp [token_check, ht, hu, verify_token, hbad]

/-- Claim C3 amended, at the concrete revoked and forged tokens. -/
theorem token_check_distinct_details_witness :
    token_check revokedSt 100 sampleTok
      = .httpError 401 "Token has been revoked" ∧
    token_check revokedSt 100 forgedTok = .httpError 401 "Invalid token" ∧
    token_check revokedSt 100 sampleTok
      ≠ token_check revokedSt 100 forgedTok :=
  token_check_distinct_details revokedSt 100 sampleTok forgedTok
    (by decide) (by decide) (by decide)

/-- Claim C4: with a pending challenge issued at `t`, any verification
strictly later than `t + 180` clears the stored challenge and fails with
400 "OTP expired", for every supplied code `s` — the stored code is never
consulted, so the outcome and post-state are independent of `s`. -/
theorem verify_otp_expired_clears (st : AuthState) (e code s : String)
    (t now : ℤ)
    (hc : lookupUser st.users e = some ⟨some code, some t⟩)
    (hlate : t + 180 < now) :
    verify_otp st e s now
      = (.httpError 400 "OTP expired",
         { st with users := updateChallenge st.users e ⟨none, none⟩ }) ∧
    lookupUser (verify_otp st e s now).2.users e = some ⟨none, none⟩ := by
  have hgt : (180 : ℤ) < now - t := by omega
  have h1 : verify_otp st e s now
      = (.httpError 400 "OTP expired",
         { st with users := updateChallenge st.users e ⟨none, none⟩ }) := by
    simp [verify_otp, hc, hgt]
  refine ⟨h1, ?_⟩
  rw [h1]
  simp [lookupUser_updateChallenge_self, hc]

/-- Claim C4, at the concrete fixture state, 190 seconds after issuance. -/
theorem verify_otp_expired_clears_witness :
    verify_otp sampleChallengeSt "a@x.com" "999999" 200
      = (.httpError 400 "OTP expired",
         { sampleChallengeSt with
            users := updateChallenge sampleChallengeSt.users "a@x.com"
              ⟨none, none⟩ }) ∧
    lookupUser (verify_otp sampleChallengeSt "a@x.com" "999999" 200).2.users
        "a@x.com" = some ⟨none, none⟩ :=
  verify_otp_expired_clears sampleChallengeSt "a@x.com" "111111" "999999"
    10 200 (by decide) (by decide)

/-- Claim C5: with a pending unexpired challenge, a wrong code fails with
400 "Invalid OTP" and leaves the whole state (in particular the stored code
and timestamp) unchanged, so a later correct attempt still within the TTL
window succeeds and mints a credential. -/
theorem verify_otp_mismatch_preserves (st : AuthState) (e code s : String)
    (t now now' : ℤ)
    (hc : lookupUser st.users e = some ⟨some code, some t⟩)
    (hfresh : now ≤ t + 180) (hne : s ≠ code) (hfresh' : now' ≤ t + 180) :
    verify_otp st e s now = (.httpError 400 "Invalid OTP", st) ∧
    (verify_otp st e code now').1
      = .ok (jwt_encode SECRET_KEY ⟨some e, now' + 30 * 60⟩) := by
  have hn : ¬((180 : ℤ) < now - t) := by omega
  have hcs : code ≠ s := fun hh => hne hh.symm
  constructor
  · simp [verify_otp, hc, hn, hcs]
  · have hn' : ¬((180 : ℤ) < now' - t) := by omega
    simp [verify_otp, hc, hn', create_access_token, tokenExpire,
      ACCESS_TOKEN_EXPIRE_MINUTES]

/-- Claim C5, at the concrete fixture state: wrong code at instant 20, then
the correct code at instant 30. -/
theorem verify_otp_mismatch_preserves_witness :
    verify_otp sampleChallengeSt "a@x.com" "222222" 20
      = (.httpError 400 "Invalid OTP", sampleChallengeSt) ∧
    (verify_otp sampleChallengeSt "a@x.com" "111111" 30).1
      = .ok (jwt_encode SECRET_KEY ⟨some "a@x.com", 30 + 30 * 60⟩) :=
  verify_otp_mismatch_preserves sampleChallengeSt "a@x.com" "111111"
    "222222" 10 20 30 (by decide) (by decide) (by decide) (by decide)

/-- Claim C6: with a pending challenge issued at `t`, verifying the stored
code at or before `t + 180` clears the challenge (code and timestamp become
NULL) and returns a credential signed with the secret key, bound to the
email, whose absolute expiry is the current time plus 30 minutes. -/
theorem verify_otp_success_mints (st : AuthState) (e code : String)
    (t now : ℤ)
    (hc : lookupUser st.users e = some ⟨some code, some t⟩)
    (hfresh : now ≤ t + 180) :
    verify_otp st e code now
      = (.ok (jwt_encode SECRET_KEY ⟨some e, now + 30 * 60⟩),
         { st with users := updateChallenge st.users e ⟨none, none⟩ }) ∧
    lookupUser (verify_otp st e code now).2.users e = some ⟨none, none⟩ := by
  have hn : ¬((180 : ℤ) < now - t) := by omega
  have h1 : verify_otp st e code now
      = (.ok (jwt_encode SECRET_KEY ⟨some e, now + 30 * 60⟩),
         { st with users := updateChallenge st.users e ⟨none, none⟩ }) := by
    simp [verify_otp, hc, hn, create_access_token, tokenExpire,
      ACCESS_TOKEN_EXPIRE_MINUTES]
  refine ⟨h1, ?_⟩
  rw [h1]
  simp [lookupUser_updateChallenge_self, hc]

/-- Claim C6, at the concrete fixture state, at the TTL boundary instant
`t + 180 = 190`. -/
theorem verify_otp_success_mints_witness :
    verify_otp sampleChallengeSt "a@x.com" "111111" 190
      = (.ok (jwt_encode SECRET_KEY ⟨some "a@x.com", 190 + 30 * 60⟩),
         { sampleChallengeSt with
            users := updateChallenge sampleChallengeSt.users "a@x.com"
              ⟨none, none⟩ }) ∧
    lookupUser (verify_otp sampleChallengeSt "a@x.com" "111111" 190).2.users
        "a@x.com" = some ⟨none, none⟩ :=
  verify_otp_success_mints sampleChallengeSt "a@x.com" "111111" 10 190
    (by decide) (by decide)

/-- Claim C7: registering an absent email succeeds and creates the row with
NULL challenge columns; registering any present email fails with 400 "Email
already registered" and changes nothing. -/
theorem register_user_fresh_and_duplicate (st : AuthState) (e : String) :
    (lookupUser st.users e = none →
      register_user st e
        = (.ok (), { st with users := st.users ++ [(e, ⟨none, none⟩)] }) ∧
      lookupUser (register_user st e).2.users e = some ⟨none, none⟩) ∧
    (∀ r, lookupUser st.users e = some r →
      register_user st e = (.httpError 400 "Email already registered", st)) := by
  constructor
  · intro h
    have h1 : register_user st e
        = (.ok (), { st with users := st.users ++ [(e, ⟨none, none⟩)] }) := by
      simp [register_user, h]
    refine ⟨h1, ?_⟩
    rw [h1]
    exact lookupUser_append_self _ _ _ h
  · intro r hr
    simp [register_user, hr]

/-- Claim C7, concretely: registering into the empty state succeeds;
registering an email present in the fixture state fails. -/
theorem register_user_fresh_and_duplicate_witness :
    ((register_user ⟨[], []⟩ "a@x.com").1 = .ok () ∧
      lookupUser (register_user ⟨[], []⟩ "a@x.com").2.users "a@x.com"
        = some ⟨none, none⟩) ∧
    register_user sampleChallengeSt "a@x.com"
      = (.httpError 400 "Email already registered", sampleChallengeSt) := by
  constructor
  · have h := (register_user_fresh_and_duplicate ⟨[], []⟩ "a@x.com").1
      (by decide)
    exact ⟨by rw [h.1], h.2⟩
  · exact (register_user_fresh_and_duplicate sampleChallengeSt "a@x.com").2
      ⟨some "111111", some 10⟩ (by decide)

/-- Claim C8: for a registered email, when delivery fails `send_otp` fails
with 500 "Failed to send email", yet the freshly written challenge (code and
timestamp) remains committed in the store — the failure does not roll the
write back. -/
theorem send_otp_failure_keeps_challenge (st : AuthState) (e o : String)
    (now : ℤ) (r : UserRecord) (hreg : lookupUser st.users e = some r) :
    send_otp st e o now false
      = (.httpError 500 "Failed to send email",
         { st with users := updateChallenge st.users e ⟨some o, some now⟩ }) ∧
    lookupUser (send_otp st e o now false).2.users e
      = some ⟨some o, some now⟩ := by
  have h1 : send_otp st e o now false
      = (.httpError 500 "Failed to send email",
         { st with users := updateChallenge st.users e ⟨some o, some now⟩ }) := by
    simp [send_otp, hreg]
  refine ⟨h1, ?_⟩
  rw [h1]
  simp [lookupUser_updateChallenge_self, hreg]

/-- Claim C8, at the concrete fixture state. -/
theorem send_otp_failure_keeps_challenge_witness :
    send_otp sampleChallengeSt "a@x.com" "424242" 50 false
      = (.httpError 500 "Failed to send email",
         { sampleChallengeSt with
            users := updateChallenge sampleChallengeSt.users "a@x.com"
              ⟨some "424242", some 50⟩ }) ∧
    lookupUser
        (send_otp sampleChallengeSt "a@x.com" "424242" 50 false).2.users
        "a@x.com" = some ⟨some "424242", some 50⟩ :=
  send_otp_failure_keeps_challenge sampleChallengeSt "a@x.com" "424242" 50
    ⟨some "111111", some 10⟩ (by decide)

/-- Claim C9: a credential minted for subject `s` with the shared secret
key, presented to `verify_token` at any instant strictly before its expiry,
verifies and returns exactly `s`. -/
theorem mint_then_verify_returns_subject (s : String) (ttl now now' : ℤ)
    (hfresh : now' < tokenExpire now (some ttl)) :
    verify_token now' (create_access_token (some s) now (some ttl))
      = .ok s := by
  have hne : ¬(tokenExpire now (some ttl) ≤ now') := by omega
  simp [verify_token, create_access_token, jwt_encode, jwt_decode, jwtSign,
    hne]

/-- Claim C9, concretely: minted at instant 0 with a 1800-second TTL,
verified at instant 100. -/
theorem mint_then_verify_returns_subject_witness :
    verify_token 100 (create_access_token (some "a@x.com") 0 (some 1800))
      = .ok "a@x.com" :=
  mint_then_verify_returns_subject "a@x.com" 1800 0 100 (by decide)

/-- Claim C10: a token signed with the secret key, unexpired, but carrying
no `"sub"` claim is rejected by `verify_token` with 401 "Invalid token" —
the same uniform failure used whenever `jwt.decode` fails (malformed token,
bad signature, or expiry) — and no absent subject is ever returned. -/
theorem verify_token_missing_sub_uniform (xp now : ℤ) (t : Tok)
    (hfresh : now < xp) :
    verify_token now (jwt_encode SECRET_KEY ⟨none, xp⟩)
      = .httpError 401 "Invalid token" ∧
    (jwt_decode SECRET_KEY now t = none →
      verify_token now t = .httpError 401 "Invalid token") := by
  constructor
  · have hne : ¬(xp ≤ now) := by omega
    simp [verify_token, jwt_encode, jwt_decode, jwtSign, hne]
  · intro h
    simp [verify_token, h]

/-- Claim C10, concretely: an unexpired sub-less token and the malformed
token both yield 401 "Invalid token". -/
theorem verify_token_missing_sub_uniform_witness :
    verify_token 100 (jwt_encode SECRET_KEY ⟨none, 1000⟩)
      = .httpError 401 "Invalid token" ∧
    (jwt_decode SECRET_KEY 100 garbageTok = none →
      verify_token 100 garbageTok = .httpError 401 "Invalid token") :=
  verify_token_missing_sub_uniform 1000 100 garbageTok (by decide)
